import Mathlib

/-!
Shallow embedding of the Source-server query/RCON client
(`rconsocket.go`, `server.go`, and the wire-codec helper file).
Machine integers (`int32`) are modelled as `Int`; byte buffers as
`List Nat`; socket reads as explicit oracles passed to the embedded
functions; the blocking receive loop is modelled with explicit fuel
(`none` = still looping after that many iterations).
-/

namespace Steam

/-- The error values of the package (`server.go` var block, the
`parseError` values of the codec file, and the `fmt.Errorf` wrappers,
each wrapper keeping the error it wraps). -/
inductive SteamErr where
  | rconAuthFailed
  | rconNotInitialized
  | invalidResponseType
  | invalidResponseID
  | invalidResponseTrailer
  | couldNotReadData
  | notEnoughDataInResponse
  | badData
  /-- `fmt.Errorf("steam: could not receive data (%v)", err)` on EOF in
  `rconSocket.receive`. -/
  | couldNotReceiveData
  | needAddress
  | couldNotOpenUDP (e : SteamErr)
  | couldNotOpenTCP (e : SteamErr)
  | couldNotAuthenticate (e : SteamErr)
  | sendingRconRequest (e : SteamErr)
  | sendingRconMirror (e : SteamErr)
  | receivingRconResponse (e : SteamErr)
  | decodingResponse (e : SteamErr)
  | couldNotReceiveInfoResponse (e : SteamErr)
  | couldNotUnmarshalInfoResponse
  /-- A transport-level error (timeout, connection reset, ...) used as an
  opaque parameter when a claim quantifies over socket failures. -/
  | transport
  deriving DecidableEq, Repr

/-- RCON request/response type constants. Modelled from the spec:
the constant definitions live in a repository file not under `src/`;
the spec fixes 0 = RESPONSE_VALUE, 2 = EXEC_COMMAND, 3 = AUTH, with
AUTH_RESPONSE sharing value 2 per the target protocol. Only
(in)equality of these values matters to the embedded checks. -/
def rrtRespValue : Int := 0

def rrtExecCmd : Int := 2

def rrtAuthResp : Int := 2

def rrtAuth : Int := 3

/-- `trailer = []byte{0x00, 0x01, 0x00, 0x00}` (`server.go`). -/
def trailer : List Nat := [0x00, 0x01, 0x00, 0x00]

/-- An unmarshalled RCON frame: `rconResponse{id, typ, body}`. -/
structure RconResponse where
  id : Int
  typ : Int
  body : List Nat
  deriving DecidableEq, Repr

/-! ## rconSocket.receive (rconsocket.go lines 47-65): the payload loop -/

/-- What one `conn.Read` can end with, as far as the loop's control flow
distinguishes outcomes: end-of-stream, a deadline expiry, or some other
transport error (the loop only tests `err == io.EOF`). -/
inductive ReadErr where
  | eof
  | timeout
  | other
  deriving DecidableEq, Repr

/-- The outcome of one `conn.Read(b)`: the bytes it delivered and the
error it returned (`none` = nil error). -/
structure ReadResult where
  data : List Nat
  err : Option ReadErr
  deriving DecidableEq, Repr

/-- The payload loop of `rconSocket.receive` (rconsocket.go lines 47-65),
after the length prefix has been parsed into `total`. `reads k` is the
outcome of the `k`-th `conn.Read`; `SetReadDeadline` is assumed to
succeed. Per iteration the code allocates `b := make([]byte, total)`, so
a read delivers at most `total` bytes (modelled by `take`); on `n > 0` it
writes the WHOLE buffer `b` (the `n` bytes read plus `total - n` zero
bytes) into `buf` and decrements `total` by `n`; then only `io.EOF` is
turned into an error — any other read error is ignored and the loop
re-runs with a fresh deadline. Fuel bounds the iterations we unroll:
`none` means the loop is still running after `fuel` iterations. -/
def receiveLoop (reads : Nat → ReadResult) :
    Nat → Nat → Int → List Nat → Option (Except SteamErr (List Nat))
  | 0, _, total, buf => if total ≤ 0 then some (.ok buf) else none
  | fuel + 1, k, total, buf =>
    if total ≤ 0 then some (.ok buf)
    else
      let d := (reads k).data.take total.toNat
      let n := d.length
      let buf' := if 0 < n then buf ++ d ++ List.replicate (total.toNat - n) 0 else buf
      let total' := if 0 < n then total - n else total
      match (reads k).err with
      | some .eof => some (.error .couldNotReceiveData)
      | _ => receiveLoop reads fuel (k + 1) total' buf'

/-- A socket whose every read attempt delivers nothing and fails with a
deadline-expiry (timeout) error. -/
def timeoutReads : Nat → ReadResult := fun _ => ⟨[], some .timeout⟩

/-- A socket whose first read reports end-of-stream with no data. -/
def eofReads : Nat → ReadResult := fun _ => ⟨[], some .eof⟩

/-! ## Wire codec: readString (codec file lines 55-68) -/

/-- `readString`: read single bytes until a zero byte; the zero byte is
consumed and excluded from the result. The input stream is the list of
bytes still unread; the result pairs the string's bytes with the bytes
left unread. `none` models the `must(err)` panic when the stream ends
before a zero byte is found. -/
def readString : List Nat → Option (List Nat × List Nat)
  | [] => none
  | b :: rest =>
    if b = 0 then some ([], rest)
    else (readString rest).map fun p => (b :: p.1, p.2)

/-! ## authenticate (server.go lines 107-140): first-reply validation -/

/-- The validation `authenticate` applies to the first reply frame
(server.go lines 122-127), transcribed branch for branch:
`if resp.typ != rrtRespValue || resp.id != req.id { return ErrInvalidResponseID }`
then `if resp.id != req.id { return ErrInvalidResponseType }`. -/
def authenticateFirstReply (reqId : Int) (resp : RconResponse) : Option SteamErr :=
  if resp.typ ≠ rrtRespValue ∨ resp.id ≠ reqId then some .invalidResponseID
  else if resp.id ≠ reqId then some .invalidResponseType
  else none

/-! ## Server.Send (server.go lines 239-292) -/

/-- The outcome of one `s.rsock.receive()` followed by
`resp.unmarshalBinary(data)` inside Send's loop: a receive error, a decode
error, or a decoded frame. -/
inductive RconRecv where
  | recvErr (e : SteamErr)
  | decodeErr (e : SteamErr)
  | frame (f : RconResponse)
  deriving DecidableEq, Repr

/-- One socket operation, recorded so a theorem can state that a code path
performs no I/O. -/
inductive SockOp where
  | rconSend
  | rconReceive
  | udpSend
  | udpReceive
  deriving DecidableEq, Repr

/-- The receive loop of `Server.Send` (server.go lines 260-290),
transcribed branch for branch over the list of receive outcomes the
socket will deliver (an exhausted list models a receive that fails).
`buf` accumulates fragment bodies; `sawMirror` is the loop flag. Returns
the result together with the number of receives performed. -/
def sendLoop (reqId mirrorId : Int) (sawMirror : Bool) (buf : List Nat) :
    List RconRecv → Except SteamErr (List Nat) × Nat
  | [] => (.error (.receivingRconResponse .transport), 1)
  | .recvErr e :: _ => (.error (.receivingRconResponse e), 1)
  | .decodeErr e :: _ => (.error (.decodingResponse e), 1)
  | .frame resp :: rest =>
    if resp.typ ≠ rrtRespValue then (.error .invalidResponseType, 1)
    else if sawMirror = false ∧ resp.id = mirrorId then
      let r := sendLoop reqId mirrorId true buf rest
      (r.1, r.2 + 1)
    else if sawMirror = true then
      if resp.body = trailer then (.ok buf, 1)
      else (.error .invalidResponseTrailer, 1)
    else if reqId ≠ resp.id then (.error .invalidResponseID, 1)
    else
      let r := sendLoop reqId mirrorId sawMirror (buf ++ resp.body) rest
      (r.1, r.2 + 1)

/-- `Server.Send` (server.go lines 239-292). Parameters model the façade's
`rconInitialized` flag, the fresh ids of the EXEC_COMMAND request
(`reqId`) and of the mirror RESPONSE_VALUE request (`mirrorId`), the
outcomes of the two socket sends, and the successive outcomes of
receive-and-decode. Returns the command result and the trace of socket
operations performed. -/
def Send (rconInitialized : Bool) (reqId mirrorId : Int)
    (sendCmdErr sendMirrorErr : Option SteamErr) (frames : List RconRecv) :
    Except SteamErr (List Nat) × List SockOp :=
  if rconInitialized = false then (.error .rconNotInitialized, [])
  else
    match sendCmdErr with
    | some e => (.error (.sendingRconRequest e), [.rconSend])
    | none =>
      match sendMirrorErr with
      | some e => (.error (.sendingRconMirror e), [.rconSend, .rconSend])
      | none =>
        let r := sendLoop reqId mirrorId false [] frames
        (r.1, [.rconSend, .rconSend] ++ List.replicate r.2 .rconReceive)

/-! ## Server.Info / Server.PlayersInfo (server.go lines 165-236) -/

/-- A decoded query-protocol datagram as the engine distinguishes them: a
challenge reply or a direct (info/players) payload. -/
inductive QueryReply where
  | challenge (c : Int)
  | payload (data : List Nat)
  deriving DecidableEq, Repr

/-- Modelled from the spec: `isChallengeResponse` lives in a repository
file not under `src/`; the spec says a challenge reply is detected by a
reserved response-type tag distinct from the info/players tag, which the
`QueryReply` constructors model. -/
def isChallengeResponse : QueryReply → Bool
  | .challenge _ => true
  | .payload _ => false

/-- Modelled from the spec: `ChallengeResponse.unmarshalBinary` (not under
`src/`) extracts the `challenge: int32` carried by a challenge reply. -/
def challengeValue : QueryReply → Int
  | .challenge c => c
  | .payload _ => 0

/-- Modelled from the spec: `InfoResponse.unmarshalBinary` (not under
`src/`); a direct reply's payload parses, while feeding a challenge
datagram to it produces a decode error (the spec: a server that
challenges twice "will produce a decode error on the second reply"). -/
def unmarshalInfo : QueryReply → Except SteamErr (List Nat)
  | .payload d => .ok d
  | .challenge _ => .error .couldNotUnmarshalInfoResponse

/-- Modelled from the spec: `PlayersInfoResponse.unmarshalBinary` (not
under `src/`), same shape as `unmarshalInfo`. -/
def unmarshalPlayers : QueryReply → Except SteamErr (List Nat)
  | .payload d => .ok d
  | .challenge _ => .error .badData

/-- A query request as the engine builds it: `infoRequest{}` /
`playersInfoRequest{}` carry no challenge, the re-query carries the
received one. -/
structure QueryRequest where
  challenge : Option Int
  deriving DecidableEq, Repr

/-- `Server.Info` (server.go lines 165-199) over a receive oracle:
`se1`/`se2` are the outcomes of the two possible sends, `recv k` the
outcome of the `k`-th receive. Returns the result and the requests sent
(so a theorem can count round trips). -/
def Info (se1 se2 : Option SteamErr) (recv : Nat → Except SteamErr QueryReply) :
    Except SteamErr (List Nat) × List QueryRequest :=
  match se1 with
  | some e => (.error e, [⟨none⟩])
  | none =>
    match recv 0 with
    | .error e => (.error (.couldNotReceiveInfoResponse e), [⟨none⟩])
    | .ok r =>
      if isChallengeResponse r = true then
        let c := challengeValue r
        match se2 with
        | some e => (.error e, [⟨none⟩, ⟨some c⟩])
        | none =>
          match recv 1 with
          | .error e => (.error e, [⟨none⟩, ⟨some c⟩])
          | .ok r2 => (unmarshalInfo r2, [⟨none⟩, ⟨some c⟩])
      else (unmarshalInfo r, [⟨none⟩])

/-- `Server.PlayersInfo` (server.go lines 202-236): same structure as
`Info`, with the first receive's error returned unwrapped and the players
unmarshaller at the end. -/
def PlayersInfo (se1 se2 : Option SteamErr) (recv : Nat → Except SteamErr QueryReply) :
    Except SteamErr (List Nat) × List QueryRequest :=
  match se1 with
  | some e => (.error e, [⟨none⟩])
  | none =>
    match recv 0 with
    | .error e => (.error e, [⟨none⟩])
    | .ok r =>
      if isChallengeResponse r = true then
        let c := challengeValue r
        match se2 with
        | some e => (.error e, [⟨none⟩, ⟨some c⟩])
        | none =>
          match recv 1 with
          | .error e => (.error e, [⟨none⟩, ⟨some c⟩])
          | .ok r2 => (unmarshalPlayers r2, [⟨none⟩, ⟨some c⟩])
      else (unmarshalPlayers r, [⟨none⟩])

/-- A server that answers an info/players request directly, never
challenging. -/
def recvDirect : Nat → Except SteamErr QueryReply := fun _ => .ok (.payload [1, 2])

/-- A server that challenges the first request with value 9 and answers
the second directly. -/
def recvChal : Nat → Except SteamErr QueryReply := fun k =>
  if k = 0 then .ok (.challenge 9) else .ok (.payload [3])

/-! ## Connect (server.go lines 42-71) and Server.initRCON (lines 88-105) -/

/-- The resources and capability the façade holds after `Connect`
returns. -/
structure ConnState where
  usockOpen : Bool
  rsockOpen : Bool
  rconInitialized : Bool
  deriving DecidableEq, Repr

/-- `Server.initRCON` (server.go lines 88-105): open the TCP socket, then
authenticate; the deferred close shuts the RCON socket when anything
after its open fails, and `rconInitialized` is set only on success.
`rconDial`/`auth` are the outcomes of the dial and of `authenticate`.
Returns (error, rsock open, rconInitialized). -/
def initRCON (addrEmpty : Bool) (rconDial auth : Option SteamErr) :
    Option SteamErr × Bool × Bool :=
  if addrEmpty = true then (some .needAddress, false, false)
  else
    match rconDial with
    | some e => (some (.couldNotOpenTCP e), false, false)
    | none =>
      match auth with
      | some e => (some (.couldNotAuthenticate e), false, false)
      | none => (none, true, true)

/-- `Connect` (server.go lines 42-71): open the UDP query socket via
`init`; if a password was supplied run `initRCON`, and the deferred close
shuts the query socket when that fails. -/
def Connect (addrEmpty hasPassword : Bool) (udpDial rconDial auth : Option SteamErr) :
    Option SteamErr × ConnState :=
  if addrEmpty = true then (some .needAddress, ⟨false, false, false⟩)
  else
    match udpDial with
    | some e => (some (.couldNotOpenUDP e), ⟨false, false, false⟩)
    | none =>
      if hasPassword = false then (none, ⟨true, false, false⟩)
      else
        match initRCON addrEmpty rconDial auth with
        | (some e, rOpen, rInit) => (some e, ⟨false, rOpen, rInit⟩)
        | (none, rOpen, rInit) => (none, ⟨true, rOpen, rInit⟩)

/-! ## Server.Ping (server.go lines 151-162) -/

/-- `Server.Ping`: the send's error is discarded (`_ = s.usock.send(req)`)
and the receive's outcome alone decides success; `elapsed` stands for the
wall-clock duration measured around the exchange, returned without
examining the received bytes. The trace records that both socket
operations are always attempted. -/
def Ping (sendErr : Option SteamErr) (recv : Except SteamErr (List Nat)) (elapsed : Nat) :
    Except SteamErr Nat × List SockOp :=
  match recv with
  | .error e => (.error e, [.udpSend, .udpReceive])
  | .ok _ => (.ok elapsed, [.udpSend, .udpReceive])

end Steam

namespace Steam

/-- C1: with every read timing out and delivering zero bytes, the receive
loop never returns: for any amount of fuel it is still iterating. The
fresh 400 ms deadline is re-armed each iteration and the non-EOF error is
swallowed, so the loop runs forever instead of surfacing the timeout. -/
theorem receiveLoop_timeout_never_returns
    (fuel k : Nat) (total : Int) (buf : List Nat) (h : 0 < total) :
    receiveLoop timeoutReads fuel k total buf = none := by
  induction fuel generalizing k with
  | zero => simp [receiveLoop, timeoutReads, not_le.mpr h]
  | succ fuel ih => simp [receiveLoop, timeoutReads, not_le.mpr h, ih]

/-- Witness for C1: four payload bytes outstanding, every read times out;
after 5 iterations the loop is still running. -/
theorem receiveLoop_timeout_never_returns_witness :
    (0 : Int) < 4 ∧ receiveLoop timeoutReads 5 0 4 [] = none :=
  ⟨by decide, receiveLoop_timeout_never_returns 5 0 4 [] (by decide)⟩

/-- Counterexample for C4: with 4 declared payload bytes outstanding and a
read that hits end-of-stream at once, `receive` fails with the wrapped
transport error `could not receive data (EOF)` — not with the
`NotEnoughDataInResponse` parse error the claim names. -/
theorem receiveLoop_eof_not_notEnoughData :
    receiveLoop eofReads 1 0 4 [] = some (.error .couldNotReceiveData) ∧
      receiveLoop eofReads 1 0 4 [] ≠ some (.error .notEnoughDataInResponse) := by
  constructor
  · rfl
  · intro h
    simp [receiveLoop, eofReads] at h

/-- C4 (amended): a read reaching end-of-stream while payload bytes are
still outstanding makes the receive loop fail, with the wrapped transport
error `steam: could not receive data (EOF)`. -/
theorem receiveLoop_eof_fails
    (reads : Nat → ReadResult) (fuel k : Nat) (total : Int) (buf : List Nat)
    (ht : 0 < total) (he : reads k = ⟨[], some .eof⟩) :
    receiveLoop reads (fuel + 1) k total buf = some (.error .couldNotReceiveData) := by
  simp [receiveLoop, not_le.mpr ht, he]

/-- Witness for the amended C4 at a concrete stream. -/
theorem receiveLoop_eof_fails_witness :
    ((0 : Int) < 4 ∧ eofReads 0 = ⟨[], some .eof⟩) ∧
      receiveLoop eofReads 3 0 4 [] = some (.error .couldNotReceiveData) :=
  ⟨⟨by decide, rfl⟩, receiveLoop_eof_fails eofReads 2 0 4 [] (by decide) rfl⟩

/-- C9: for a stream whose unread bytes are `pre ++ 0 :: post` with no zero
byte in `pre`, `readString` returns exactly `pre`, consumes the zero byte,
and leaves `post` unread. -/
theorem readString_spec (pre post : List Nat) (h : 0 ∉ pre) :
    readString (pre ++ 0 :: post) = some (pre, post) := by
  induction pre with
  | nil => simp [readString]
  | cons b rest ih =>
    have hb : b ≠ 0 := fun hb => h (hb ▸ List.mem_cons_self b rest)
    have hr : 0 ∉ rest := fun hr => h (List.mem_cons_of_mem b hr)
    simp [readString, hb, ih hr]

/-- Witness for C9: the stream `[104, 105, 0, 7]` yields the string
`[104, 105]` with `[7]` left unread. -/
theorem readString_spec_witness :
    (0 : Nat) ∉ [104, 105] ∧ readString ([104, 105] ++ 0 :: [7]) = some ([104, 105], [7]) :=
  ⟨by decide, readString_spec [104, 105] [7] (by decide)⟩

/-- C3: evaluating `authenticate`'s first-reply validation on a frame whose
type is AUTH_RESPONSE (not RESPONSE_VALUE) but whose id matches the
request: the code returns `ErrInvalidResponseID`, not the
`ErrInvalidResponseType` the spec assigns to a type mismatch (the
`ErrInvalidResponseType` branch is unreachable: its guard repeats a
condition the first branch already returned on). -/
theorem authenticateFirstReply_type_mismatch :
    authenticateFirstReply 7 ⟨7, rrtAuthResp, []⟩ = some .invalidResponseID ∧
      SteamErr.invalidResponseID ≠ SteamErr.invalidResponseType := by
  constructor
  · rfl
  · intro h
    cases h

/-- Helper: while the mirror has not been seen, a run of frames carrying
the request id and type RESPONSE_VALUE is consumed by appending their
bodies, in order, to the accumulated buffer. -/
theorem sendLoop_appends_fragments (reqId mirrorId : Int) (frags : List RconResponse)
    (buf : List Nat) (rest : List RconRecv)
    (hfr : ∀ f ∈ frags, f.id = reqId ∧ f.typ = rrtRespValue)
    (hne : reqId ≠ mirrorId) :
    (sendLoop reqId mirrorId false buf (frags.map .frame ++ rest)).1 =
      (sendLoop reqId mirrorId false (buf ++ (frags.map RconResponse.body).flatten) rest).1 := by
  induction frags generalizing buf with
  | nil => simp
  | cons f fs ih =>
    obtain ⟨hid, htyp⟩ := hfr f (List.mem_cons_self f fs)
    have hmid : f.id ≠ mirrorId := fun h => hne (hid.symm.trans h)
    have htail : ∀ g ∈ fs, g.id = reqId ∧ g.typ = rrtRespValue :=
      fun g hg => hfr g (List.mem_cons_of_mem f hg)
    rw [List.map_cons, List.cons_append]
    simp only [sendLoop]
    rw [if_neg (by simp [htyp]), if_neg (by simp [hmid]), if_neg (by simp),
      if_neg (by simp [hid])]
    show (sendLoop reqId mirrorId false (buf ++ f.body) (fs.map .frame ++ rest)).1 = _
    rw [ih (buf ++ f.body) htail]
    simp [List.append_assoc]

/-- Helper: the first frame carrying the mirror id flips `sawMirror` and is
itself discarded, whatever its body. -/
theorem sendLoop_mirror_step (reqId mirrorId : Int) (buf mb : List Nat)
    (rest : List RconRecv) :
    (sendLoop reqId mirrorId false buf (.frame ⟨mirrorId, rrtRespValue, mb⟩ :: rest)).1 =
      (sendLoop reqId mirrorId true buf rest).1 := by
  simp [sendLoop]

/-- Helper: once the mirror is seen, a RESPONSE_VALUE frame whose body is
the trailer sentinel ends the loop with the accumulated buffer. -/
theorem sendLoop_trailer_step (reqId mirrorId tid : Int) (buf : List Nat)
    (rest : List RconRecv) :
    (sendLoop reqId mirrorId true buf (.frame ⟨tid, rrtRespValue, trailer⟩ :: rest)).1 =
      .ok buf := by
  simp [sendLoop]

/-- Helper: once the mirror is seen, a RESPONSE_VALUE frame whose body is
not the trailer sentinel fails the loop with `InvalidResponseTrailer`. -/
theorem sendLoop_bad_trailer_step (reqId mirrorId tid : Int) (buf bb : List Nat)
    (rest : List RconRecv) (hbb : bb ≠ trailer) :
    (sendLoop reqId mirrorId true buf (.frame ⟨tid, rrtRespValue, bb⟩ :: rest)).1 =
      .error .invalidResponseTrailer := by
  simp [sendLoop, hbb]

/-- C2: after an authenticated Send, a reply sequence of N RESPONSE_VALUE
fragments carrying the request id, then a RESPONSE_VALUE frame carrying
the mirror id, then a RESPONSE_VALUE frame whose body is exactly
`{0x00, 0x01, 0x00, 0x00}`, makes Send return the concatenation of the N
fragment bodies in receive order, the mirror's and trailer's contents
excluded. -/
theorem Send_mirror_trailer_concat (reqId mirrorId tid : Int)
    (frags : List RconResponse) (mb : List Nat)
    (hfr : ∀ f ∈ frags, f.id = reqId ∧ f.typ = rrtRespValue)
    (hne : reqId ≠ mirrorId) :
    (Send true reqId mirrorId none none
        (frags.map .frame ++
          [.frame ⟨mirrorId, rrtRespValue, mb⟩, .frame ⟨tid, rrtRespValue, trailer⟩])).1 =
      .ok (frags.map RconResponse.body).flatten := by
  have h1 := sendLoop_appends_fragments reqId mirrorId frags []
    [.frame ⟨mirrorId, rrtRespValue, mb⟩, .frame ⟨tid, rrtRespValue, trailer⟩] hfr hne
  have h2 := sendLoop_mirror_step reqId mirrorId
    ((frags.map RconResponse.body).flatten) mb [.frame ⟨tid, rrtRespValue, trailer⟩]
  have h3 := sendLoop_trailer_step reqId mirrorId tid
    ((frags.map RconResponse.body).flatten) ([] : List RconRecv)
  simp only [Send, Bool.true_eq_false, if_false, reduceIte]
  simp only [List.nil_append] at h1
  exact h1.trans (h2.trans h3)

/-- Witness for C2: command id 5, mirror id 6, two fragments `[97]` and
`[98, 99]`, an empty-bodied mirror and the trailer sentinel: Send returns
`[97, 98, 99]`. -/
theorem Send_mirror_trailer_concat_witness :
    ((∀ f ∈ [RconResponse.mk 5 rrtRespValue [97], RconResponse.mk 5 rrtRespValue [98, 99]],
        f.id = 5 ∧ f.typ = rrtRespValue) ∧ (5 : Int) ≠ 6) ∧
      (Send true 5 6 none none
          ([RconResponse.mk 5 rrtRespValue [97],
            RconResponse.mk 5 rrtRespValue [98, 99]].map .frame ++
            [.frame ⟨6, rrtRespValue, []⟩, .frame ⟨6, rrtRespValue, trailer⟩])).1 =
        .ok ([RconResponse.mk 5 rrtRespValue [97],
          RconResponse.mk 5 rrtRespValue [98, 99]].map RconResponse.body).flatten :=
  ⟨⟨by decide, by decide⟩,
    Send_mirror_trailer_concat 5 6 6
      [RconResponse.mk 5 rrtRespValue [97], RconResponse.mk 5 rrtRespValue [98, 99]] []
      (by decide) (by decide)⟩

/-- C6: once the mirror has been seen, a RESPONSE_VALUE frame whose body
differs from `{0x00, 0x01, 0x00, 0x00}` makes Send fail with
`InvalidResponseTrailer`; the fragment bodies accumulated so far are
discarded, not returned. -/
theorem Send_bad_trailer_fails (reqId mirrorId tid : Int)
    (frags : List RconResponse) (mb bb : List Nat)
    (hfr : ∀ f ∈ frags, f.id = reqId ∧ f.typ = rrtRespValue)
    (hne : reqId ≠ mirrorId) (hbb : bb ≠ trailer) :
    (Send true reqId mirrorId none none
        (frags.map .frame ++
          [.frame ⟨mirrorId, rrtRespValue, mb⟩, .frame ⟨tid, rrtRespValue, bb⟩])).1 =
      .error .invalidResponseTrailer := by
  have h1 := sendLoop_appends_fragments reqId mirrorId frags []
    [.frame ⟨mirrorId, rrtRespValue, mb⟩, .frame ⟨tid, rrtRespValue, bb⟩] hfr hne
  have h2 := sendLoop_mirror_step reqId mirrorId
    ((frags.map RconResponse.body).flatten) mb [.frame ⟨tid, rrtRespValue, bb⟩]
  have h3 := sendLoop_bad_trailer_step reqId mirrorId tid
    ((frags.map RconResponse.body).flatten) bb ([] : List RconRecv) hbb
  simp only [Send, Bool.true_eq_false, if_false, reduceIte]
  simp only [List.nil_append] at h1
  exact h1.trans (h2.trans h3)

/-- Witness for C6: one fragment `[97]` accumulated, then the mirror, then
a frame whose body `[1, 2, 3]` is not the trailer: Send fails with
`InvalidResponseTrailer` and returns no output. -/
theorem Send_bad_trailer_fails_witness :
    ((∀ f ∈ [RconResponse.mk 5 rrtRespValue [97]], f.id = 5 ∧ f.typ = rrtRespValue) ∧
        (5 : Int) ≠ 6 ∧ ([1, 2, 3] : List Nat) ≠ trailer) ∧
      (Send true 5 6 none none
          ([RconResponse.mk 5 rrtRespValue [97]].map .frame ++
            [.frame ⟨6, rrtRespValue, []⟩, .frame ⟨6, rrtRespValue, [1, 2, 3]⟩])).1 =
        .error .invalidResponseTrailer :=
  ⟨⟨by decide, by decide, by decide⟩,
    Send_bad_trailer_fails 5 6 6 [RconResponse.mk 5 rrtRespValue [97]] [] [1, 2, 3]
      (by decide) (by decide) (by decide)⟩

/-- C7: before a successful authentication (`rconInitialized = false`),
Send fails with `RCONNotInitialized` and its socket-operation trace is
empty — no bytes are sent or received on either socket. -/
theorem Send_uninitialized_no_io (reqId mirrorId : Int)
    (sendCmdErr sendMirrorErr : Option SteamErr) (frames : List RconRecv) :
    Send false reqId mirrorId sendCmdErr sendMirrorErr frames =
      (.error .rconNotInitialized, []) := rfl

/-- C5: Info and PlayersInfo perform one round trip when the first reply
is not a challenge (the result parsed from that reply), and exactly two
when it is — the second request carrying the challenge value from the
first reply, the result parsed from the second reply, and no third
request ever sent. -/
theorem Info_challenge_round_trips :
    (∀ (recv : Nat → Except SteamErr QueryReply) (d : List Nat),
        recv 0 = .ok (.payload d) → Info none none recv = (.ok d, [⟨none⟩])) ∧
    (∀ (recv : Nat → Except SteamErr QueryReply) (c : Int) (r2 : QueryReply),
        recv 0 = .ok (.challenge c) → recv 1 = .ok r2 →
        Info none none recv = (unmarshalInfo r2, [⟨none⟩, ⟨some c⟩])) ∧
    (∀ (recv : Nat → Except SteamErr QueryReply) (d : List Nat),
        recv 0 = .ok (.payload d) → PlayersInfo none none recv = (.ok d, [⟨none⟩])) ∧
    (∀ (recv : Nat → Except SteamErr QueryReply) (c : Int) (r2 : QueryReply),
        recv 0 = .ok (.challenge c) → recv 1 = .ok r2 →
        PlayersInfo none none recv = (unmarshalPlayers r2, [⟨none⟩, ⟨some c⟩])) := by
  refine ⟨?_, ?_, ?_, ?_⟩
  · intro recv d h0
    simp [Info, h0, isChallengeResponse, unmarshalInfo]
  · intro recv c r2 h0 h1
    simp [Info, h0, h1, isChallengeResponse, challengeValue]
  · intro recv d h0
    simp [PlayersInfo, h0, isChallengeResponse, unmarshalPlayers]
  · intro recv c r2 h0 h1
    simp [PlayersInfo, h0, h1, isChallengeResponse, challengeValue]

/-- Witness for C5: a never-challenging server answers in one round trip;
a once-challenging server takes exactly two, the second request carrying
challenge 9. -/
theorem Info_challenge_round_trips_witness :
    (recvDirect 0 = .ok (.payload [1, 2]) ∧
        Info none none recvDirect = (.ok [1, 2], [⟨none⟩])) ∧
      (recvChal 0 = .ok (.challenge 9) ∧ recvChal 1 = .ok (.payload [3]) ∧
        Info none none recvChal = (unmarshalInfo (.payload [3]), [⟨none⟩, ⟨some 9⟩])) ∧
      (PlayersInfo none none recvDirect = (.ok [1, 2], [⟨none⟩])) ∧
      (PlayersInfo none none recvChal =
        (unmarshalPlayers (.payload [3]), [⟨none⟩, ⟨some 9⟩])) :=
  ⟨⟨rfl, Info_challenge_round_trips.1 recvDirect [1, 2] rfl⟩,
    ⟨rfl, rfl, Info_challenge_round_trips.2.1 recvChal 9 (.payload [3]) rfl rfl⟩,
    Info_challenge_round_trips.2.2.1 recvDirect [1, 2] rfl,
    Info_challenge_round_trips.2.2.2 recvChal 9 (.payload [3]) rfl rfl⟩

/-- C8: with the query socket opened (udp dial succeeded) and a password
supplied, a failure opening the RCON socket or a failure of Authenticate
closes the query socket before the error is returned; a failed
Authenticate additionally leaves the RCON socket closed and the façade
not RCON-capable. -/
theorem Connect_no_leak_on_failure :
    (∀ (e : SteamErr) (auth : Option SteamErr),
        Connect false true none (some e) auth =
          (some (.couldNotOpenTCP e), ⟨false, false, false⟩)) ∧
    (∀ e : SteamErr,
        Connect false true none none (some e) =
          (some (.couldNotAuthenticate e), ⟨false, false, false⟩)) :=
  ⟨fun _ _ => rfl, fun _ => rfl⟩

/-- C10: Ping discards the send step's error and always proceeds to
receive (both operations appear in the trace); it returns an error
exactly when the receive fails, and on success returns the measured
elapsed duration without examining the received bytes. -/
theorem Ping_receive_decides (sendErr : Option SteamErr) (elapsed : Nat) :
    (∀ d : List Nat,
        Ping sendErr (.ok d) elapsed = (.ok elapsed, [.udpSend, .udpReceive])) ∧
    (∀ e : SteamErr,
        Ping sendErr (.error e) elapsed = (.error e, [.udpSend, .udpReceive])) :=
  ⟨fun _ => rfl, fun _ => rfl⟩

end Steam
